import Mathlib

/-!
Verification development for the gpt-vis-mcp repository.

The definitions below are a shallow embedding of the tool composition and
dispatch layer found in src/app.ts, src/constant.ts, src/stdio.server.ts and
the HTTP server module.  External collaborators (the GPT-Vis renderer, the
filesystem, the upstream discovery process) are modelled as explicit oracle
parameters of type Except String Unit, matching the fact that in the source
every such call is fallible and its failure is observed through a thrown
exception.  JavaScript asynchronous exceptions are modelled as Except values;
a try/catch block becomes a match on the composed Except computation.
-/

namespace GptVis

/-- JS truthiness of an optional string value: undefined and the empty string
are falsy, every other string is truthy.  This models the checks
"if (config.renderedImageHostPath)" and "if (!type)" in src/app.ts. -/
def jsTruthy : Option String → Bool
  | none => false
  | some s => s != ""

/-- Embedding of the ServerConfig interface of src/app.ts: renderedImagePath
is always present (defaulted from the environment), renderedImageHostPath is
optional. -/
structure ServerConfig where
  renderedImagePath : String
  renderedImageHostPath : Option String

/-- Embedding of the MCPTool interface of src/app.ts.  The input schema is
opaque to the core (only forwarded to the transport), so it is modelled as a
plain string. -/
structure MCPTool where
  name : String
  description : String
  inputSchema : String

/-- Embedding of CHART_TYPE_MAP of src/constant.ts: the static table mapping
tool names to renderer chart-type tokens, as an association list in source
order. -/
def CHART_TYPE_MAP : List (String × String) :=
  [ ("generate_area_chart", "area"),
    ("generate_bar_chart", "bar"),
    ("generate_boxplot_chart", "boxplot"),
    ("generate_column_chart", "column"),
    ("generate_district_map", "district-map"),
    ("generate_dual_axes_chart", "dual-axes"),
    ("generate_fishbone_diagram", "fishbone-diagram"),
    ("generate_flow_diagram", "flow-diagram"),
    ("generate_funnel_chart", "funnel"),
    ("generate_histogram_chart", "histogram"),
    ("generate_line_chart", "line"),
    ("generate_liquid_chart", "liquid"),
    ("generate_mind_map", "mind-map"),
    ("generate_network_graph", "network-graph"),
    ("generate_organization_chart", "organization-chart"),
    ("generate_path_map", "path-map"),
    ("generate_pie_chart", "pie"),
    ("generate_pin_map", "pin-map"),
    ("generate_radar_chart", "radar"),
    ("generate_sankey_chart", "sankey"),
    ("generate_scatter_chart", "scatter"),
    ("generate_treemap_chart", "treemap"),
    ("generate_venn_chart", "venn"),
    ("generate_violin_chart", "violin"),
    ("generate_word_cloud_chart", "word-cloud") ]

/-- Embedding of CHART_TYPE_UNSUPPORTED of src/constant.ts: the denylist of
tool names that must not be registered locally. -/
def CHART_TYPE_UNSUPPORTED : List String :=
  [ "geographic_district_map",
    "geographic_path_map",
    "geographic_pin_map" ]

/-- The object-indexing expression CHART_TYPE_MAP[name] of src/app.ts:
first matching key wins, absence yields undefined (none). -/
def chartTypeFor (name : String) : Option String :=
  (CHART_TYPE_MAP.find? (fun p => p.fst == name)).map Prod.snd

/-- Decimal digit characters of a natural number, accumulator style; the
first argument is fuel (structural recursion), always called with enough
fuel to finish.  This embeds the number-to-string conversion performed by
the JavaScript template literal in generateImageFilename of src/app.ts. -/
def decimalDigitsAux : Nat → Nat → List Char → List Char
  | 0, _, acc => acc
  | fuel + 1, n, acc =>
    if n < 10 then Char.ofNat (48 + n % 10) :: acc
    else decimalDigitsAux fuel (n / 10) (Char.ofNat (48 + n % 10) :: acc)

/-- Decimal rendering of a JS integer, as produced by string interpolation of
Date.now() in src/app.ts. -/
def jsNumToString (n : Nat) : String :=
  String.mk (decimalDigitsAux (n + 1) n [])

/-- Embedding of generateImageFilename of src/app.ts.  The millisecond
timestamp Date.now() and the 8-character identifier produced by generateId(8)
are passed as parameters since both come from the environment. -/
def generateImageFilename (timestamp : Nat) (id : String) : String :=
  "chart_" ++ jsNumToString timestamp ++ "_" ++ id ++ ".png"

/-- Embedding of node:path join for the uses occurring in this repository:
the directory and the file name are concatenated with a single slash
separator.  Node join additionally normalizes dot and dot-dot segments;
this model keeps those segments symbolic, which is faithful for every
property stated below (none depends on normalization). -/
def pathJoin (dir file : String) : String :=
  if dir == "" then file
  else if dir.data.getLast? == some '/' then dir ++ file
  else dir ++ "/" ++ file

/-- Embedding of generateImageResponse of src/app.ts. -/
def generateImageResponse (cfg : ServerConfig) (filename : String)
    (forHttp : Bool) : String :=
  if jsTruthy cfg.renderedImageHostPath then
    cfg.renderedImageHostPath.getD "" ++ "/" ++ filename
  else if forHttp then
    "/charts/" ++ filename
  else
    pathJoin cfg.renderedImagePath filename

/-- One content block of an MCP ChartResult; the type field is always
the literal "text" in the source. -/
structure ChartContent where
  type : String
  text : String

/-- Embedding of the ChartResult interface of src/app.ts (the MCP result
envelope). -/
structure ChartResult where
  isError : Bool
  content : List ChartContent

/-- Embedding of the ChartResponse interface of src/app.ts (the HTTP result
envelope). -/
structure ChartResponse where
  success : Bool
  resultObj : Option String
  errorMessage : Option String

/-- Embedding of the ChartOptions interface of src/app.ts.  The type field
may be absent from the caller payload on the HTTP path, hence Option; the
chart data and the remaining free-form keys are opaque to the core and are
modelled as association lists. -/
structure ChartOptions where
  type : Option String
  data : List (String × String)
  rest : List (String × String)

/-- Embedding of generateChart of src/app.ts (MCP-shaped result).  The
renderer call and the exportToFile call are the two fallible external steps
inside the try block; their outcomes are oracle parameters.  The timestamp
and generated identifier feeding generateImageFilename are parameters as
well. -/
def generateChart (cfg : ServerConfig) (renderResult exportResult : Except String Unit)
    (timestamp : Nat) (id : String) : ChartResult :=
  match renderResult with
  | .error e =>
      { isError := true,
        content := [⟨"text", "Failed to generate chart: " ++ e⟩] }
  | .ok _ =>
      let filename := generateImageFilename timestamp id
      match exportResult with
      | .error e =>
          { isError := true,
            content := [⟨"text", "Failed to generate chart: " ++ e⟩] }
      | .ok _ =>
          let imageUrl := generateImageResponse cfg filename false
          { isError := false,
            content := [⟨"text",
              if jsTruthy cfg.renderedImageHostPath then
                "Chart generated successfully! Access it at: " ++ imageUrl
              else
                "Chart generated and saved to: " ++ imageUrl⟩] }

/-- Embedding of generateChartForHttp of src/app.ts.  The second component
of the result is an execution trace: the chart-type string handed to the
renderer, or none when the renderer was never invoked. -/
def generateChartForHttp (cfg : ServerConfig) (options : ChartOptions)
    (renderResult exportResult : Except String Unit)
    (timestamp : Nat) (id : String) : ChartResponse × Option String :=
  if jsTruthy options.type then
    let ty := options.type.getD ""
    match renderResult with
    | .error e => ({ success := false, resultObj := none, errorMessage := some e }, some ty)
    | .ok _ =>
        match exportResult with
        | .error e =>
            ({ success := false, resultObj := none, errorMessage := some e }, some ty)
        | .ok _ =>
            ({ success := true,
               resultObj := some (generateImageResponse cfg
                 (generateImageFilename timestamp id) true),
               errorMessage := none }, some ty)
  else
    ({ success := false, resultObj := none,
       errorMessage := some "Chart type is required" }, none)

/-- The try-block body of the per-tool handler installed by
registerToolWithLocalExecutor in src/app.ts: resolve the chart type of the
bound tool name through CHART_TYPE_MAP, throw when absent, otherwise run
generateChart.  A thrown exception is an error value of this Except. -/
def toolHandlerBody (cfg : ServerConfig) (name : String)
    (renderResult exportResult : Except String Unit)
    (timestamp : Nat) (id : String) : Except String ChartResult :=
  if jsTruthy (chartTypeFor name) then
    .ok (generateChart cfg renderResult exportResult timestamp id)
  else
    .error ("Unknown chart type for tool: " ++ name)

/-- Embedding of the full handler closure registered for a tool by
registerToolWithLocalExecutor in src/app.ts: the body wrapped in the
handler-boundary catch.  Its codomain is a plain ChartResult, not an Except:
in the embedding, no fault value can cross this boundary. -/
def toolHandler (cfg : ServerConfig) (name : String)
    (renderResult exportResult : Except String Unit)
    (timestamp : Nat) (id : String) : ChartResult :=
  match toolHandlerBody cfg name renderResult exportResult timestamp id with
  | .ok r => r
  | .error e =>
      { isError := true,
        content := [⟨"text", "Error executing " ++ name ++ ": " ++ e⟩] }

/-- Embedding of the supportedTools filter of src/app.ts: discovered tools
whose name is not on the denylist. -/
def supportedTools (tools : List MCPTool) : List MCPTool :=
  tools.filter (fun t => !(CHART_TYPE_UNSUPPORTED.contains t.name))

/-- The guard at the top of registerToolWithLocalExecutor of src/app.ts:
the tool is registered unless its name is on the denylist. -/
def registersTool (t : MCPTool) : Bool :=
  !(CHART_TYPE_UNSUPPORTED.contains t.name)

/-- Names of the tools that end up with a registered handler after the
startup composition of src/app.ts: supportedTools is computed, then each
element is passed to registerToolWithLocalExecutor, which applies its own
denylist guard before calling server.tool. -/
def registeredToolNames (tools : List MCPTool) : List String :=
  ((supportedTools tools).filter registersTool).map MCPTool.name

/-- An HTTP response of the /generate route: status code plus the serialized
ChartResponse body. -/
structure GenerateHttpResponse where
  status : Nat
  body : ChartResponse

/-- Embedding of the POST /generate route of startHttpServer (the HTTP
server module): a body that fails to parse as JSON yields status 400 with an
Invalid request message; a parsed body is handed to generateChartForHttp and
the result is returned with the default status 200.  The trace component is
the one of generateChartForHttp. -/
def generateRoute (cfg : ServerConfig) (body : Except String ChartOptions)
    (renderResult exportResult : Except String Unit)
    (timestamp : Nat) (id : String) : GenerateHttpResponse × Option String :=
  match body with
  | .error e =>
      ({ status := 400,
         body := { success := false, resultObj := none,
                   errorMessage := some ("Invalid request: " ++ e) } }, none)
  | .ok options =>
      let r := generateChartForHttp cfg options renderResult exportResult timestamp id
      ({ status := 200, body := r.fst }, r.snd)

/-- An HTTP response of the /charts/ route: status code and body text (the
body stands for the PNG byte stream on success). -/
structure ChartsHttpResponse where
  status : Nat
  body : String

/-- Embedding of the GET /charts/ route of startHttpServer.  The route is
entered when url.pathname starts with "/charts/"; the source removes the
first occurrence of "/charts/" via String.replace which, under that guard,
is the 8-character prefix, so the remainder is pathname.drop 8.  The file at
pathJoin renderedImagePath remainder is opened with no sanitization; the
open outcome is an oracle.  The trace component records the path the open
was attempted on. -/
def chartsRoute (cfg : ServerConfig) (pathname : String)
    (openResult : Except String Unit) : ChartsHttpResponse × Option String :=
  let filename := String.mk (pathname.data.drop 8)
  let filePath := pathJoin cfg.renderedImagePath filename
  match openResult with
  | .ok _ => ({ status := 200, body := "png-bytes" }, some filePath)
  | .error _ => ({ status := 404, body := "Image not found" }, some filePath)

/-- Embedding of initializeImageDirectory of src/app.ts.  The filesystem is
modelled as the list of existing directories; access with F_OK is
membership; mkdir recursive either succeeds, adding the directory, or fails
with an environmental error supplied by the oracle.  A mkdir failure is
rethrown wrapped in the descriptive message of the source. -/
def initializeImageDirectory (fs : List String) (path : String)
    (mkdirError : Option String) : Except String (List String) :=
  if path ∈ fs then
    .ok fs
  else
    match mkdirError with
    | none => .ok (path :: fs)
    | some e => .error ("Failed to initialize image directory: " ++ e)

/-- The observable actions of the transport onclose callback of
src/stdio.server.ts. -/
inductive TransportCloseAction where
  | cleanupClients
  | logTransportClosed
  deriving DecidableEq

/-- Modelled from the spec: cleanupClients, the cleanup operation of the
Tool Composer, is imported from the composition module (src/app.ts) by
src/stdio.server.ts, but its definition is absent from the src snapshot
(only its import and call site are present).  Per the spec it tears down the
spawned upstream subprocesses and connections; the composer state is
modelled as the list of live upstream clients, and cleanup terminates them
all. -/
def cleanupClients (liveUpstreamClients : List String) : List String :=
  let _ := liveUpstreamClients
  []

/-- Embedding of the transport onclose callback installed by
src/stdio.server.ts: it first awaits cleanupClients, then logs that the
transport closed. -/
def transportOncloseActions : List TransportCloseAction :=
  [TransportCloseAction.cleanupClients, TransportCloseAction.logTransportClosed]

/-- A concrete configuration used by the witness statements: the Docker
default image directory, no host path. -/
def exampleConfig : ServerConfig :=
  { renderedImagePath := "/tmp/gpt-vis-charts", renderedImageHostPath := none }

/-! Helper lemmas. -/

lemma ne_empty_of_head (s : String) (c : Char) (h : s.data.head? = some c) :
    s ≠ "" := by
  intro he
  rw [he] at h
  simp at h

lemma ne_of_head_ne (s t : String) (c d : Char) (hs : s.data.head? = some c)
    (ht : t.data.head? = some d) (hcd : c ≠ d) : s ≠ t := by
  intro h
  rw [h, ht] at hs
  exact hcd (Option.some.inj hs).symm

lemma digitChar_isDigit (m : Nat) (h : m < 10) :
    (Char.ofNat (48 + m)).isDigit = true := by
  interval_cases m <;> decide

lemma decimalDigitsAux_digits (fuel : Nat) :
    ∀ (n : Nat) (acc : List Char), (∀ c ∈ acc, c.isDigit = true) →
      ∀ c ∈ decimalDigitsAux fuel n acc, c.isDigit = true := by
  induction fuel with
  | zero => exact fun n acc hacc c hc => hacc c hc
  | succ fuel ih =>
    intro n acc hacc c hc
    have hcons : ∀ c ∈ (Char.ofNat (48 + n % 10) :: acc), c.isDigit = true := by
      intro c hc
      rcases List.mem_cons.mp hc with h | h
      · subst h
        exact digitChar_isDigit _ (Nat.mod_lt _ (by omega))
      · exact hacc c h
    simp only [decimalDigitsAux] at hc
    split at hc
    · exact hcons c hc
    · exact ih _ _ hcons c hc

lemma decimalDigitsAux_ne_nil (fuel : Nat) :
    ∀ (n : Nat) (acc : List Char), acc ≠ [] → decimalDigitsAux fuel n acc ≠ [] := by
  induction fuel with
  | zero => exact fun n acc hacc => hacc
  | succ fuel ih =>
    intro n acc _
    simp only [decimalDigitsAux]
    split
    · exact List.cons_ne_nil _ _
    · exact ih _ _ (List.cons_ne_nil _ _)

lemma jsNumToString_data_ne_nil (n : Nat) : (jsNumToString n).data ≠ [] := by
  show decimalDigitsAux (n + 1) n [] ≠ []
  simp only [decimalDigitsAux]
  split
  · exact List.cons_ne_nil _ _
  · exact decimalDigitsAux_ne_nil _ _ _ (List.cons_ne_nil _ _)

lemma jsNumToString_digits (n : Nat) :
    ∀ c ∈ (jsNumToString n).data, c.isDigit = true := by
  show ∀ c ∈ decimalDigitsAux (n + 1) n [], c.isDigit = true
  exact decimalDigitsAux_digits _ _ _ (by simp)

/-! Theorems settling the claims. -/

/-- C7: every string returned by generateImageFilename has the shape
chart_ followed by the decimal (all-digit, nonempty) millisecond timestamp,
an underscore, the 8-character generated identifier, and the suffix .png. -/
theorem generateImageFilename_matches_pattern (timestamp : Nat) (id : String)
    (hid : id.length = 8) :
    ∃ digits : String,
      generateImageFilename timestamp id =
        "chart_" ++ digits ++ "_" ++ id ++ ".png" ∧
      digits.data ≠ [] ∧
      (∀ c ∈ digits.data, c.isDigit = true) ∧
      id.length = 8 :=
  ⟨jsNumToString timestamp, rfl, jsNumToString_data_ne_nil _,
    jsNumToString_digits _, hid⟩

/-- C7 witness: the pattern theorem evaluated at timestamp 1748 and the
concrete 8-character identifier abcd1234. -/
theorem generateImageFilename_matches_pattern_witness :
    ("abcd1234" : String).length = 8 ∧
    ∃ digits : String,
      generateImageFilename 1748 "abcd1234" =
        "chart_" ++ digits ++ "_" ++ "abcd1234" ++ ".png" ∧
      digits.data ≠ [] ∧
      (∀ c ∈ digits.data, c.isDigit = true) ∧
      ("abcd1234" : String).length = 8 :=
  ⟨by decide, generateImageFilename_matches_pattern 1748 "abcd1234" (by decide)⟩

/-- C8: directory initialization is idempotent: whenever a first call
succeeds, the directory exists afterwards and a second call, under any mkdir
environment, succeeds immediately and leaves the filesystem unchanged. -/
theorem initializeImageDirectory_idempotent (fs : List String) (path : String)
    (mkdirError1 mkdirError2 : Option String) (fs1 : List String)
    (h : initializeImageDirectory fs path mkdirError1 = .ok fs1) :
    path ∈ fs1 ∧ initializeImageDirectory fs1 path mkdirError2 = .ok fs1 := by
  unfold initializeImageDirectory at h ⊢
  by_cases hmem : path ∈ fs
  · simp only [hmem, if_pos] at h
    have hfs : fs = fs1 := by
      cases h
      rfl
    subst hfs
    simp [hmem]
  · simp only [hmem, if_neg, not_false_iff] at h
    cases hmk : mkdirError1 with
    | none =>
      rw [hmk] at h
      have hfs : path :: fs = fs1 := by
        cases h
        rfl
      subst hfs
      simp
    | some e =>
      rw [hmk] at h
      cases h

/-- C8 witness: initializing the default image directory on an empty
filesystem and then initializing again. -/
theorem initializeImageDirectory_idempotent_witness :
    initializeImageDirectory [] "/tmp/gpt-vis-charts" none = .ok ["/tmp/gpt-vis-charts"] ∧
    ("/tmp/gpt-vis-charts" ∈ ["/tmp/gpt-vis-charts"] ∧
      initializeImageDirectory ["/tmp/gpt-vis-charts"] "/tmp/gpt-vis-charts" none =
        .ok ["/tmp/gpt-vis-charts"]) :=
  ⟨rfl,
    initializeImageDirectory_idempotent [] "/tmp/gpt-vis-charts" none none
      ["/tmp/gpt-vis-charts"] rfl⟩

/-- C4: when the host path is configured to a nonempty string, the response
location is the host path, a slash and the filename, on both transport
paths; when it is unset, the HTTP path yields /charts/ followed by the
filename and the MCP path yields the filesystem join of the image directory
and the filename. -/
theorem generateImageResponse_locations (cfg : ServerConfig) (filename : String) :
    (∀ host : String, cfg.renderedImageHostPath = some host → host ≠ "" →
      ∀ forHttp : Bool,
        generateImageResponse cfg filename forHttp = host ++ "/" ++ filename) ∧
    (cfg.renderedImageHostPath = none →
      generateImageResponse cfg filename true = "/charts/" ++ filename ∧
      generateImageResponse cfg filename false =
        pathJoin cfg.renderedImagePath filename) := by
  constructor
  · intro host hh hne forHttp
    unfold generateImageResponse
    rw [hh]
    simp [jsTruthy, hne]
  · intro hh
    unfold generateImageResponse
    rw [hh]
    simp [jsTruthy]

/-- C4 witness: the host-path override at the example of the spec, and the
unset case on the HTTP path. -/
theorem generateImageResponse_locations_witness :
    generateImageResponse
        { renderedImagePath := "/data/charts",
          renderedImageHostPath := some "https://example.com/images" }
        "chart_1_a.png" true = "https://example.com/images/chart_1_a.png" ∧
    generateImageResponse
        { renderedImagePath := "/data/charts", renderedImageHostPath := none }
        "chart_1_a.png" true = "/charts/chart_1_a.png" := by
  constructor
  · exact ((generateImageResponse_locations
      { renderedImagePath := "/data/charts",
        renderedImageHostPath := some "https://example.com/images" }
      "chart_1_a.png").1 "https://example.com/images" rfl (by decide) true).trans
      (by decide)
  · exact ((generateImageResponse_locations
      { renderedImagePath := "/data/charts", renderedImageHostPath := none }
      "chart_1_a.png").2 rfl).1

/-- C5: a well-formed POST /generate body whose type field is absent or
empty yields status 200 with success false and the error message
Chart type is required, and the renderer is never invoked. -/
theorem generateRoute_missing_type (cfg : ServerConfig) (options : ChartOptions)
    (renderResult exportResult : Except String Unit) (timestamp : Nat) (id : String)
    (htype : options.type = none ∨ options.type = some "") :
    (generateRoute cfg (.ok options) renderResult exportResult timestamp id).fst.status = 200 ∧
    (generateRoute cfg (.ok options) renderResult exportResult timestamp id).fst.body.success = false ∧
    (generateRoute cfg (.ok options) renderResult exportResult timestamp id).fst.body.errorMessage =
      some "Chart type is required" ∧
    (generateRoute cfg (.ok options) renderResult exportResult timestamp id).snd = none := by
  have hfalse : jsTruthy options.type = false := by
    rcases htype with h | h <;> rw [h] <;> rfl
  unfold generateRoute generateChartForHttp
  simp [hfalse]

/-- C5 witness: the route at a body carrying data but no type. -/
theorem generateRoute_missing_type_witness :
    ({ type := none, data := [("0", "sales")], rest := [] } : ChartOptions).type = none ∧
    ((generateRoute exampleConfig
        (.ok { type := none, data := [("0", "sales")], rest := [] })
        (.ok ()) (.ok ()) 7 "abcd1234").fst.status = 200 ∧
      (generateRoute exampleConfig
        (.ok { type := none, data := [("0", "sales")], rest := [] })
        (.ok ()) (.ok ()) 7 "abcd1234").fst.body.success = false ∧
      (generateRoute exampleConfig
        (.ok { type := none, data := [("0", "sales")], rest := [] })
        (.ok ()) (.ok ()) 7 "abcd1234").fst.body.errorMessage =
          some "Chart type is required" ∧
      (generateRoute exampleConfig
        (.ok { type := none, data := [("0", "sales")], rest := [] })
        (.ok ()) (.ok ()) 7 "abcd1234").snd = none) :=
  ⟨rfl, generateRoute_missing_type exampleConfig _ (.ok ()) (.ok ()) 7 "abcd1234"
    (Or.inl rfl)⟩

/-- C9: on the HTTP path any nonempty caller-supplied type string is handed
to the renderer verbatim, with no chart-type-map lookup and no denylist
check, and when renderer and export succeed the response is a success; a
type is rejected only through renderer failure. -/
theorem generateChartForHttp_forwards_type (cfg : ServerConfig) (options : ChartOptions)
    (renderResult exportResult : Except String Unit) (timestamp : Nat) (id : String)
    (ty : String) (hty : options.type = some ty) (hne : ty ≠ "") :
    (generateChartForHttp cfg options renderResult exportResult timestamp id).snd = some ty ∧
    (renderResult = .ok () → exportResult = .ok () →
      (generateChartForHttp cfg options renderResult exportResult timestamp id).fst.success = true) := by
  unfold generateChartForHttp
  rw [hty]
  have htrue : jsTruthy (some ty) = true := by
    simp [jsTruthy, hne]
  rw [htrue]
  cases renderResult with
  | error e => exact ⟨rfl, by intro h; cases h⟩
  | ok u =>
    cases u
    cases exportResult with
    | error e => exact ⟨rfl, by intro _ h; cases h⟩
    | ok u => cases u; exact ⟨rfl, fun _ _ => rfl⟩

/-- C9 witness: the denylisted name geographic_pin_map, absent from the
chart-type map, still reaches the renderer verbatim on the HTTP path and
succeeds when the renderer does. -/
theorem generateChartForHttp_forwards_type_witness :
    "geographic_pin_map" ∈ CHART_TYPE_UNSUPPORTED ∧
    chartTypeFor "geographic_pin_map" = none ∧
    ((generateChartForHttp exampleConfig
        { type := some "geographic_pin_map", data := [], rest := [] }
        (.ok ()) (.ok ()) 5 "abcd1234").snd = some "geographic_pin_map" ∧
      ((.ok () : Except String Unit) = .ok () → (.ok () : Except String Unit) = .ok () →
        (generateChartForHttp exampleConfig
          { type := some "geographic_pin_map", data := [], rest := [] }
          (.ok ()) (.ok ()) 5 "abcd1234").fst.success = true)) :=
  ⟨by decide, by decide,
    generateChartForHttp_forwards_type exampleConfig _ (.ok ()) (.ok ()) 5 "abcd1234"
      "geographic_pin_map" rfl (by decide)⟩

/-- C10: for every request path beginning with /charts/, the served file is
exactly the join of renderedImagePath with the path remainder, with no
sanitization and no containment check, and any open failure yields a 404
with body Image not found. -/
theorem chartsRoute_opens_joined_path (cfg : ServerConfig) (pathname : String)
    (openResult : Except String Unit)
    (_hpre : "/charts/".data.isPrefixOf pathname.data = true) :
    (chartsRoute cfg pathname openResult).snd =
      some (pathJoin cfg.renderedImagePath (String.mk (pathname.data.drop 8))) ∧
    (∀ e : String, openResult = .error e →
      (chartsRoute cfg pathname openResult).fst.status = 404 ∧
      (chartsRoute cfg pathname openResult).fst.body = "Image not found") ∧
    (openResult = .ok () →
      (chartsRoute cfg pathname openResult).fst.status = 200) := by
  unfold chartsRoute
  cases openResult with
  | error e =>
    refine ⟨rfl, fun e2 h2 => ⟨rfl, rfl⟩, fun h => ?_⟩
    simp at h
  | ok u =>
    cases u
    refine ⟨rfl, fun e2 h2 => ?_, fun _ => rfl⟩
    simp at h2

/-- C10 witness: a traversal path escaping the image directory is joined and
opened verbatim; the failed open yields the 404 Image not found response. -/
theorem chartsRoute_opens_joined_path_witness :
    ("/charts/" : String).data.isPrefixOf ("/charts/../../etc/passwd" : String).data = true ∧
    ((chartsRoute exampleConfig "/charts/../../etc/passwd" (.error "no such file")).snd =
        some "/tmp/gpt-vis-charts/../../etc/passwd" ∧
      (chartsRoute exampleConfig "/charts/../../etc/passwd" (.error "no such file")).fst.status = 404 ∧
      (chartsRoute exampleConfig "/charts/../../etc/passwd" (.error "no such file")).fst.body =
        "Image not found") := by
  have h := chartsRoute_opens_joined_path exampleConfig "/charts/../../etc/passwd"
    (.error "no such file") (by decide)
  refine ⟨by decide, ?_, (h.2.1 "no such file" rfl).1, (h.2.1 "no such file" rfl).2⟩
  rw [h.1]
  decide

/-- C6: when the stdio transport session closes, the first action the
onclose callback performs is the invocation of the cleanupClients operation
of the composition module, and that cleanup leaves no live upstream client
process behind. -/
theorem transport_onclose_invokes_cleanup (liveUpstreamClients : List String) :
    transportOncloseActions.head? = some TransportCloseAction.cleanupClients ∧
    TransportCloseAction.cleanupClients ∈ transportOncloseActions ∧
    cleanupClients liveUpstreamClients = [] :=
  ⟨rfl, by simp [transportOncloseActions], rfl⟩

/-- C2 (amended): after startup composition, a name has a registered handler
exactly when it is a discovered name not on the denylist; membership in the
static chart-type map is not consulted at registration time. -/
theorem registeredToolNames_eq_discovered_minus_denylist
    (tools : List MCPTool) (name : String) :
    name ∈ registeredToolNames tools ↔
      (name ∈ tools.map MCPTool.name ∧ name ∉ CHART_TYPE_UNSUPPORTED) := by
  unfold registeredToolNames supportedTools registersTool
  simp only [List.mem_map, List.mem_filter]
  constructor
  · rintro ⟨t, ⟨⟨ht, hd1⟩, _⟩, hn⟩
    subst hn
    refine ⟨⟨t, ht, rfl⟩, ?_⟩
    simpa using hd1
  · rintro ⟨⟨t, ht, hn⟩, hd⟩
    subst hn
    exact ⟨t, ⟨⟨ht, by simpa using hd⟩, by simpa using hd⟩, rfl⟩

/-- C2 counterexample: a discovered tool whose name is absent from the
chart-type map and not on the denylist still receives a registered handler,
refuting the claimed intersection with the map keys. -/
theorem registeredToolNames_not_map_intersection :
    "generate_unknown_chart" ∈ registeredToolNames
        [{ name := "generate_unknown_chart", description := "demo", inputSchema := "s" }] ∧
    chartTypeFor "generate_unknown_chart" = none ∧
    "generate_unknown_chart" ∉ CHART_TYPE_UNSUPPORTED := by
  refine ⟨?_, ?_, ?_⟩ <;> decide

/-- C1: whenever any step of a registered tool handler fails (the renderer
rejects, the export step fails, or the chart type of the bound tool name is
unknown), the handler returns a failure-shaped ChartResult with isError
true and a nonempty descriptive text message.  The handler total function
returns a plain ChartResult, never an exceptional value: in the embedding
no fault can cross the handler boundary to the transport layer. -/
theorem toolHandler_never_propagates (cfg : ServerConfig) (name : String)
    (renderResult exportResult : Except String Unit) (timestamp : Nat) (id : String)
    (hfail : (∃ e, renderResult = .error e) ∨ (∃ e, exportResult = .error e) ∨
      chartTypeFor name = none) :
    (toolHandler cfg name renderResult exportResult timestamp id).isError = true ∧
    ∃ msg : String,
      (toolHandler cfg name renderResult exportResult timestamp id).content =
        [{ type := "text", text := msg }] ∧ msg ≠ "" := by
  unfold toolHandler toolHandlerBody
  cases hty : jsTruthy (chartTypeFor name) with
  | true =>
    cases renderResult with
    | error e =>
      exact ⟨rfl, "Failed to generate chart: " ++ e, rfl, ne_empty_of_head _ 'F' rfl⟩
    | ok u =>
      cases u
      cases exportResult with
      | error e =>
        exact ⟨rfl, "Failed to generate chart: " ++ e, rfl, ne_empty_of_head _ 'F' rfl⟩
      | ok u =>
        cases u
        exfalso
        rcases hfail with ⟨e, he⟩ | ⟨e, he⟩ | hnone
        · exact Except.noConfusion he
        · exact Except.noConfusion he
        · rw [hnone] at hty
          exact absurd hty (by decide)
  | false =>
    exact ⟨rfl, "Error executing " ++ name ++ ": " ++ ("Unknown chart type for tool: " ++ name),
      rfl, ne_empty_of_head _ 'E' rfl⟩

/-- C1 witness: the handler bound to a name absent from the chart-type map,
with renderer and export succeeding. -/
theorem toolHandler_never_propagates_witness :
    (((∃ e, (Except.ok () : Except String Unit) = .error e) ∨
      (∃ e, (Except.ok () : Except String Unit) = .error e) ∨
      chartTypeFor "generate_unknown_chart" = none)) ∧
    ((toolHandler exampleConfig "generate_unknown_chart" (.ok ()) (.ok ()) 3 "abcd1234").isError = true ∧
      ∃ msg : String,
        (toolHandler exampleConfig "generate_unknown_chart" (.ok ()) (.ok ()) 3 "abcd1234").content =
          [{ type := "text", text := msg }] ∧ msg ≠ "") :=
  ⟨Or.inr (Or.inr (by decide)),
    toolHandler_never_propagates exampleConfig "generate_unknown_chart" (.ok ()) (.ok ())
      3 "abcd1234" (Or.inr (Or.inr (by decide)))⟩

/-- C3: every invocation populates exactly one of the success location and
the error message: the HTTP ChartResponse has resultObj present and
errorMessage absent exactly when success is true, and resultObj absent and
errorMessage present exactly when success is false; the MCP ChartResult
carries a single text block which is a success-location message precisely
when isError is false. -/
theorem result_populates_exactly_one (cfg : ServerConfig) (options : ChartOptions)
    (renderResult exportResult : Except String Unit) (timestamp : Nat) (id : String) :
    (((generateChartForHttp cfg options renderResult exportResult timestamp id).fst.success = true ∧
      (generateChartForHttp cfg options renderResult exportResult timestamp id).fst.resultObj.isSome = true ∧
      (generateChartForHttp cfg options renderResult exportResult timestamp id).fst.errorMessage = none) ∨
     ((generateChartForHttp cfg options renderResult exportResult timestamp id).fst.success = false ∧
      (generateChartForHttp cfg options renderResult exportResult timestamp id).fst.resultObj = none ∧
      (generateChartForHttp cfg options renderResult exportResult timestamp id).fst.errorMessage.isSome = true)) ∧
    (∃ txt : String,
      (generateChart cfg renderResult exportResult timestamp id).content =
        [{ type := "text", text := txt }] ∧
      ((generateChart cfg renderResult exportResult timestamp id).isError = false ↔
        (∃ url : String,
          txt = "Chart generated successfully! Access it at: " ++ url ∨
          txt = "Chart generated and saved to: " ++ url))) := by
  constructor
  · unfold generateChartForHttp
    cases hty : jsTruthy options.type with
    | false =>
      right
      exact ⟨rfl, rfl, rfl⟩
    | true =>
      cases renderResult with
      | error e => right; exact ⟨rfl, rfl, rfl⟩
      | ok u =>
        cases u
        cases exportResult with
        | error e => right; exact ⟨rfl, rfl, rfl⟩
        | ok u => cases u; left; exact ⟨rfl, rfl, rfl⟩
  · cases renderResult with
    | error e =>
      refine ⟨"Failed to generate chart: " ++ e, rfl, ?_, ?_⟩
      · intro h
        exact Bool.noConfusion h
      · rintro ⟨url, h | h⟩
        · exact absurd h (ne_of_head_ne _ _ 'F' 'C' rfl rfl (by decide))
        · exact absurd h (ne_of_head_ne _ _ 'F' 'C' rfl rfl (by decide))
    | ok u =>
      cases u
      cases exportResult with
      | error e =>
        refine ⟨"Failed to generate chart: " ++ e, rfl, ?_, ?_⟩
        · intro h
          exact Bool.noConfusion h
        · rintro ⟨url, h | h⟩
          · exact absurd h (ne_of_head_ne _ _ 'F' 'C' rfl rfl (by decide))
          · exact absurd h (ne_of_head_ne _ _ 'F' 'C' rfl rfl (by decide))
      | ok u =>
        cases u
        cases hhost : jsTruthy cfg.renderedImageHostPath with
        | true =>
          refine ⟨"Chart generated successfully! Access it at: " ++
            generateImageResponse cfg (generateImageFilename timestamp id) false, ?_, ?_, ?_⟩
          · simp [generateChart, hhost]
          · intro _
            exact ⟨generateImageResponse cfg (generateImageFilename timestamp id) false,
              Or.inl rfl⟩
          · intro _
            rfl
        | false =>
          refine ⟨"Chart generated and saved to: " ++
            generateImageResponse cfg (generateImageFilename timestamp id) false, ?_, ?_, ?_⟩
          · simp [generateChart, hhost]
          · intro _
            exact ⟨generateImageResponse cfg (generateImageFilename timestamp id) false,
              Or.inr rfl⟩
          · intro _
            rfl

/-- C3 witness: the exclusivity statement for the MCP envelope, evaluated at
a successful invocation with the pie chart type. -/
theorem result_populates_exactly_one_witness :
    ∃ txt : String,
      (generateChart exampleConfig (.ok ()) (.ok ()) 2 "abcd1234").content =
        [{ type := "text", text := txt }] ∧
      ((generateChart exampleConfig (.ok ()) (.ok ()) 2 "abcd1234").isError = false ↔
        (∃ url : String,
          txt = "Chart generated successfully! Access it at: " ++ url ∨
          txt = "Chart generated and saved to: " ++ url)) :=
  (result_populates_exactly_one exampleConfig
    { type := some "pie", data := [], rest := [] } (.ok ()) (.ok ()) 2 "abcd1234").2

/-- C2 witness: the registration equivalence evaluated at a singleton
discovered set consisting of the pie chart tool. -/
theorem registeredToolNames_eq_discovered_minus_denylist_witness :
    "generate_pie_chart" ∈ registeredToolNames
        [{ name := "generate_pie_chart", description := "demo", inputSchema := "s" }] ↔
      ("generate_pie_chart" ∈
          ([{ name := "generate_pie_chart", description := "demo",
              inputSchema := "s" }] : List MCPTool).map MCPTool.name ∧
        "generate_pie_chart" ∉ CHART_TYPE_UNSUPPORTED) :=
  registeredToolNames_eq_discovered_minus_denylist
    [{ name := "generate_pie_chart", description := "demo", inputSchema := "s" }]
    "generate_pie_chart"

/-- C6 witness: the cleanup theorem evaluated at a single live upstream
client. -/
theorem transport_onclose_invokes_cleanup_witness :
    transportOncloseActions.head? = some TransportCloseAction.cleanupClients ∧
    TransportCloseAction.cleanupClients ∈ transportOncloseActions ∧
    cleanupClients ["mcp-server-chart"] = [] :=
  transport_onclose_invokes_cleanup ["mcp-server-chart"]

end GptVis
